import Mathlib

/-
  Verification of the session-scoped interaction lifecycle of the
  ThreatLens-AI repository analyzer (src/app.py).

  The Python script is shallowly embedded: the Streamlit session state is a
  record of optional fields (Python None becomes Option.none), provider calls
  made through the OpenAI client are an environment record of fallible
  operations (a raised exception becomes Except.error), and the module-level
  run branch, the extraction helper, the stream handler and the reset button
  handler become explicit Lean functions over that environment and state.
-/

namespace ThreatLens

/-- A Python exception value crossing the provider boundary, or a NameError
raised by the interpreter when an unbound variable is referenced. -/
inductive PyErr where
  | apiErr (msg : String)
  | nameErr (ident : String)
deriving DecidableEq

/-- The Streamlit session state keys initialised at lines 94-102 of app.py:
each key is set to None when absent, so every field is an Option. -/
structure SessionState where
  thread_id : Option String
  file_id : Option String
  run_finished : Option Bool
  report_bytes : Option (List Nat)
  report_name : Option String
deriving DecidableEq

/-- The state of a brand-new session: every key initialised to None. -/
def initialState : SessionState :=
  { thread_id := none, file_id := none, run_finished := none,
    report_bytes := none, report_name := none }

/-- Python truthiness of an optional string: None and the empty string are
falsy. -/
def truthyStr : Option String → Bool
  | none => false
  | some s => !s.isEmpty

/-- Python truthiness of an optional boolean: None is falsy. -/
def truthyB : Option Bool → Bool
  | none => false
  | some b => b

/-- A message attachment as used by the extraction helper: its file_id
attribute, with None modelling an absent identifier. -/
structure Attachment where
  file_id : Option String
deriving DecidableEq

/-- File metadata returned by files.retrieve: filename is None when the
object has no filename attribute (the hasattr check at line 190). -/
structure FileMeta where
  filename : Option String
deriving DecidableEq

/-- A thread message as seen by the extraction helper: its attachments
attribute (None when absent or None in Python) and the string rendering
str(msg) that the regex fallback scans. -/
structure Message where
  attachments : Option (List Attachment)
  str_repr : String
deriving DecidableEq

/-- Python str.endswith on our String model. -/
def pyEndsWith (s suffix : String) : Bool :=
  List.isSuffixOf suffix.data s.data

/-- The provider environment: one field per OpenAI client operation the
script performs, each returning either a value or a raised exception.
streamRun returns the list of text-delta fragments the run emits (a fragment
with a None value is Option.none). -/
structure Env where
  upload : Except PyErr String
  createThread : Except PyErr String
  retrieveThread : String → Except PyErr String
  updateThread : String → List String → Except PyErr Unit
  createMessage : String → String → Except PyErr Unit
  streamRun : Except PyErr (List (Option String))
  listMessages : String → Except PyErr (List Message)
  retrieveFile : String → Except PyErr FileMeta
  fileContent : String → Except PyErr (List Nat)
  deleteFile : String → Except PyErr Unit
  deleteThread : String → Except PyErr Unit

/-! ### Stream handler (app.py lines 157-166) -/

/-- The StreamHandler object: its accumulating text buffer, and the display
sink modelled as the sequence of markdown payloads pushed to the output box,
in order. -/
structure StreamHandler where
  buffer : String
  box : List String
deriving DecidableEq

/-- on_text_delta: append the fragment value (or "" when the value is None)
to the buffer, then push the whole buffer to the display sink. -/
def on_text_delta (h : StreamHandler) (delta : Option String) : StreamHandler :=
  let buf := h.buffer ++ delta.getD ""
  { buffer := buf, box := h.box ++ [buf] }

/-- Feed a list of streamed fragments through the handler in order. -/
def runHandler (h : StreamHandler) : List (Option String) → StreamHandler
  | [] => h
  | d :: ds => runHandler (on_text_delta h d) ds

/-- The handler constructed at line 172: empty buffer, nothing pushed yet. -/
def initHandler : StreamHandler := { buffer := "", box := [] }

/-- Concatenation of a list of fragments, an absent (None) fragment
contributing the empty string. -/
def concatFrags : List (Option String) → String
  | [] => ""
  | d :: ds => d.getD "" ++ concatFrags ds

/-- The successive buffer values pushed to the sink while consuming the
fragments, starting from buffer value b. -/
def pushes (b : String) : List (Option String) → List String
  | [] => []
  | d :: ds => (b ++ d.getD "") :: pushes (b ++ d.getD "") ds

/-! ### Report extraction (app.py lines 183-198) -/

/-- One character of the ASCII class [a-zA-Z0-9] of the fallback pattern. -/
def isAlnumAscii (c : Char) : Bool := c.isAlpha || c.isDigit

/-- Try to match the pattern file-[a-zA-Z0-9]+ at the head of the character
list; on success return the whole match (the maximal alphanumeric run). -/
def fileIdAt : List Char → Option String
  | 'f' :: 'i' :: 'l' :: 'e' :: '-' :: rest =>
    let run := rest.takeWhile isAlnumAscii
    if run.isEmpty then none
    else some (String.mk ('f' :: 'i' :: 'l' :: 'e' :: '-' :: run))
  | _ => none

/-- re.search: try the pattern at each position from the left, returning the
leftmost match. -/
def searchChars : List Char → Option String
  | [] => none
  | c :: cs =>
    match fileIdAt (c :: cs) with
    | some m => some m
    | none => searchChars cs

/-- First match of the pattern file-[a-zA-Z0-9]+ in a string. -/
def searchFileId (s : String) : Option String := searchChars s.data

/-- The inner attachment loop of the first extraction strategy: for each
attachment with a truthy file_id, retrieve the file metadata (a raised
provider error propagates) and return the file_id when the filename ends in
".md". -/
def scanAtts (env : Env) : List Attachment → Except PyErr (Option String)
  | [] => .ok none
  | att :: rest =>
    match att.file_id with
    | none => scanAtts env rest
    | some fid =>
      if fid.isEmpty then scanAtts env rest
      else
        match env.retrieveFile fid with
        | .error e => .error e
        | .ok fo =>
          match fo.filename with
          | none => scanAtts env rest
          | some fn =>
            if pyEndsWith fn ".md" then .ok (some fid) else scanAtts env rest

/-- The outer message loop of the first extraction strategy: scan each
message that has a truthy attachments attribute (a missing or empty
attachment list contributes nothing, exactly like scanning no attachments). -/
def scanMsgs (env : Env) : List Message → Except PyErr (Option String)
  | [] => .ok none
  | msg :: rest =>
    match scanAtts env (msg.attachments.getD []) with
    | .error e => .error e
    | .ok (some fid) => .ok (some fid)
    | .ok none => scanMsgs env rest

/-- The fallback strategy: first match of the file-identifier pattern in the
string rendering of any message, in message order. -/
def regexScan : List Message → Option String
  | [] => none
  | msg :: rest =>
    match searchFileId msg.str_repr with
    | some m => some m
    | none => regexScan rest

/-- _extract_md_file_id: list the thread messages, run the attachment scan
over all of them, and only when it finds nothing fall back to the regex
scan. -/
def extract_md_file_id (env : Env) (tid : String) : Except PyErr (Option String) :=
  match env.listMessages tid with
  | .error e => .error e
  | .ok msgs =>
    match scanMsgs env msgs with
    | .error e => .error e
    | .ok (some fid) => .ok (some fid)
    | .ok none => .ok (regexScan msgs)

/-- Specification-side view of the attachment test applied to a single
attachment when file retrievals succeed: the attachment identifier when
it is truthy and the retrieved filename ends in ".md". -/
def attMd (env : Env) (att : Attachment) : Option String :=
  match att.file_id with
  | none => none
  | some fid =>
    if fid.isEmpty then none
    else
      match env.retrieveFile fid with
      | .error _ => none
      | .ok fo =>
        match fo.filename with
        | none => none
        | some fn => if pyEndsWith fn ".md" then some fid else none

/-- Specification-side view of the qualifying Markdown attachment:
the first attachment of the message passing the attMd test. -/
def msgMd (env : Env) (msg : Message) : Option String :=
  (msg.attachments.getD []).findSome? (attMd env)

/-! ### The run branch (app.py lines 120-209) -/

/-- Counts and arguments of the provider calls a piece of the script issues:
thread creations, thread retrievals, file-content fetches, file deletions and
thread deletions. -/
structure Trace where
  threadCreates : Nat
  threadRetrieves : List String
  fileFetches : List String
  fileDeletes : List String
  threadDeletes : List String
deriving DecidableEq

/-- The empty call trace. -/
def Trace.empty : Trace :=
  { threadCreates := 0, threadRetrieves := [], fileFetches := [],
    fileDeletes := [], threadDeletes := [] }

/-- How a run of the script branch terminates: normal completion, the
st.error/st.stop path taken when no report was located (a user-visible
message that halts the script run without killing the process), or an
exception propagating uncaught out of the script. -/
inductive Outcome where
  | completed
  | reportNotFound
  | raised (e : PyErr)
deriving DecidableEq

/-- Steps 3-7 of the run branch, after the thread with identifier tid has
been acquired: attach the uploaded file to the thread, post the user
message, stream the run, extract the report file identifier, fetch its
content and store the report in session state. -/
def runAfterThread (env : Env) (prompt : String) (s : SessionState) (tid : String)
    (tr : Trace) : SessionState × Outcome × Trace :=
  match env.updateThread tid [s.file_id.getD ""] with
  | .error e => (s, .raised e, tr)
  | .ok _ =>
    match env.createMessage tid prompt with
    | .error e => (s, .raised e, tr)
    | .ok _ =>
      match env.streamRun with
      | .error e => (s, .raised e, tr)
      | .ok _frags =>
        match extract_md_file_id env tid with
        | .error e => (s, .raised e, tr)
        | .ok none => (s, .reportNotFound, tr)
        | .ok (some mid) =>
          match env.fileContent mid with
          | .error e => (s, .raised e, { tr with fileFetches := tr.fileFetches ++ [mid] })
          | .ok bs =>
            ({ s with report_bytes := some bs,
                      report_name := some "Medical-Diagnosis-Project-Report.md",
                      run_finished := some true },
             .completed,
             { tr with fileFetches := tr.fileFetches ++ [mid] })

/-- The whole run branch: upload the archive and store its handle
(overwriting any prior one), create the thread when the session has none and
otherwise retrieve the stored one, then continue with steps 3-7. -/
def runAnalysis (env : Env) (prompt : String) (s0 : SessionState) :
    SessionState × Outcome × Trace :=
  match env.upload with
  | .error e => (s0, .raised e, Trace.empty)
  | .ok fid =>
    match s0.thread_id with
    | none =>
      match env.createThread with
      | .error e =>
        ({ s0 with file_id := some fid }, .raised e,
         { Trace.empty with threadCreates := 1 })
      | .ok tid =>
        runAfterThread env prompt
          { s0 with file_id := some fid, thread_id := some tid } tid
          { Trace.empty with threadCreates := 1 }
    | some stid =>
      match env.retrieveThread stid with
      | .error e =>
        ({ s0 with file_id := some fid }, .raised e,
         { Trace.empty with threadRetrieves := [stid] })
      | .ok tid =>
        runAfterThread env prompt { s0 with file_id := some fid } tid
          { Trace.empty with threadRetrieves := [stid] }

/-- The thread-acquisition step of a run succeeds and yields the thread
object whose identifier tid the rest of the run uses. -/
def acquiresThread (env : Env) (s : SessionState) (tid : String) : Prop :=
  (s.thread_id = none ∧ env.createThread = Except.ok tid) ∨
  (∃ st, s.thread_id = some st ∧ env.retrieveThread st = Except.ok tid)

/-! ### Reset button handler (app.py lines 227-240) -/

/-- The try-block of the reset handler (lines 229-237). mdVar is the state
of the script-local variable md_file_id when the handler runs: none means
the name is unbound in this script run (referencing it raises a NameError),
some v means it is bound to v. Deletions are attempted in order — archive
file, report file, thread — and the first exception aborts the remaining
attempts; the except clause swallows it. Returns the deletion attempts
actually issued and the swallowed exception, if any. -/
def tryDeletions (env : Env) (mdVar : Option (Option String)) (s : SessionState) :
    Trace × Option PyErr :=
  let afterArchive : Trace × Option PyErr :=
    match s.file_id with
    | none => (Trace.empty, none)
    | some f =>
      if f.isEmpty then (Trace.empty, none)
      else
        match env.deleteFile f with
        | .ok _ => ({ Trace.empty with fileDeletes := [f] }, none)
        | .error e => ({ Trace.empty with fileDeletes := [f] }, some e)
  match afterArchive with
  | (tr, some e) => (tr, some e)
  | (tr, none) =>
    match mdVar with
    | none => (tr, some (PyErr.nameErr "md_file_id"))
    | some mdv =>
      let afterReport : Trace × Option PyErr :=
        match mdv with
        | none => (tr, none)
        | some m =>
          if m.isEmpty then (tr, none)
          else
            match env.deleteFile m with
            | .ok _ => ({ tr with fileDeletes := tr.fileDeletes ++ [m] }, none)
            | .error e => ({ tr with fileDeletes := tr.fileDeletes ++ [m] }, some e)
      match afterReport with
      | (tr2, some e) => (tr2, some e)
      | (tr2, none) =>
        match s.thread_id with
        | none => (tr2, none)
        | some t =>
          if t.isEmpty then (tr2, none)
          else
            match env.deleteThread t with
            | .ok _ => ({ tr2 with threadDeletes := tr2.threadDeletes ++ [t] }, none)
            | .error e => ({ tr2 with threadDeletes := tr2.threadDeletes ++ [t] }, some e)

/-- The whole reset handler: run the try-block (any exception is printed and
swallowed), then delete every session-state key; on the next script run the
initialisation loop at lines 94-102 re-creates each key as None, so locally
the cleared session is exactly a brand-new one. -/
def resetHandler (env : Env) (mdVar : Option (Option String)) (s : SessionState) :
    SessionState × Trace :=
  (initialState, (tryDeletions env mdVar s).1)

/-! ### Assistant registry (app.py lines 54-89) -/

/-- The fixed assistant configuration passed to assistants.create: name,
model, temperature (in tenths, the source literal is 0.2) and tool list. -/
structure AssistantConfig where
  name : String
  model : String
  temperatureTenths : Nat
  tools : List String
deriving DecidableEq

/-- The configuration hard-coded in app.py. -/
def fixedConfig : AssistantConfig :=
  { name := "THREATLENS-AI-Agent", model := "gpt-4.1",
    temperatureTenths := 2, tools := ["code_interpreter"] }

/-- _get_or_create_assistant under st.cache_resource: the process-wide cache
is an Option handle; a cache miss runs the body (one assistants.create call
with the fixed configuration) and stores the result, a cache hit returns the
stored handle with no creation call. Returns the handle, the new cache, and
the list of creation calls performed. -/
def get_or_create_assistant (create : AssistantConfig → String)
    (cache : Option String) : String × Option String × List AssistantConfig :=
  match cache with
  | some h => (h, some h, [])
  | none => (create fixedConfig, some (create fixedConfig), [fixedConfig])

/-! ### Preview and download section (app.py lines 214-224) -/

/-- The payload served by the download button: rendered only when the
completion flag is truthy, and then serving exactly the stored report bytes
under the stored report name. -/
def downloadPayload (s : SessionState) : Option (List Nat × String) :=
  if truthyB s.run_finished then some (s.report_bytes.getD [], s.report_name.getD "")
  else none

/-- Session states reachable from a brand-new session by any sequence of
run-branch executions and reset-handler executions, under arbitrary provider
behaviour. -/
inductive Reachable : SessionState → Prop where
  | init : Reachable initialState
  | run (env : Env) (prompt : String) {s : SessionState} (h : Reachable s) :
      Reachable (runAnalysis env prompt s).1
  | reset (env : Env) (mdVar : Option (Option String)) {s : SessionState}
      (h : Reachable s) : Reachable (resetHandler env mdVar s).1

/-- The invariant tying the completion flag to the stored report: whenever
the flag is truthy, the canonical report name and some report bytes are
stored. -/
def ReportInv (s : SessionState) : Prop :=
  truthyB s.run_finished = true →
    s.report_name = some "Medical-Diagnosis-Project-Report.md" ∧
    ∃ b, s.report_bytes = some b

/-! ### Concrete fixtures used by the witnesses -/

/-- A message with no attachments attribute and no file identifier in its
string rendering. -/
def msgPlain : Message :=
  { attachments := none, str_repr := "The analysis is complete." }

/-- A message with an empty attachment list whose string rendering contains
a regex-matching file identifier. -/
def msgRegex : Message :=
  { attachments := some [], str_repr := "Message(report at file-regex999 done)" }

/-- An attachment carrying a file identifier. -/
def attReport : Attachment := { file_id := some "file-att1" }

/-- A message carrying the report attachment, listed after the
regex-matching message. -/
def msgAtt : Message :=
  { attachments := some [attReport], str_repr := "assistant message" }

/-- A provider environment where every call succeeds: the upload yields
file-abc, thread th1 is created, and the message list holds a regex match
followed by a Markdown attachment whose metadata is report.md. -/
def env0 : Env :=
  { upload := .ok "file-abc",
    createThread := .ok "th1",
    retrieveThread := fun t => .ok t,
    updateThread := fun _ _ => .ok (),
    createMessage := fun _ _ => .ok (),
    streamRun := .ok [some "# Report\n", some "## Summary\n"],
    listMessages := fun _ => .ok [msgRegex, msgAtt],
    retrieveFile := fun _ => .ok { filename := some "report.md" },
    fileContent := fun _ => .ok [104, 105],
    deleteFile := fun _ => .ok (),
    deleteThread := fun _ => .ok () }

/-- Like env0 but the only message has no attachment and no regex match. -/
def env4 : Env := { env0 with listMessages := fun _ => .ok [msgPlain] }

/-- Like env0 but the upload raises a provider error. -/
def envFail : Env := { env0 with upload := .error (PyErr.apiErr "upload failed") }

/-- A session after a completed run: all three server-side handles present. -/
def s5 : SessionState :=
  { thread_id := some "thread-1", file_id := some "file-up1",
    run_finished := some true, report_bytes := some [104, 105],
    report_name := some "Medical-Diagnosis-Project-Report.md" }

/-- A session holding a stale archive handle from an earlier run. -/
def s9 : SessionState := { initialState with file_id := some "file-old" }

/-! ### Helper lemmas -/

theorem runHandler_box (ds : List (Option String)) :
    ∀ h : StreamHandler, (runHandler h ds).box = h.box ++ pushes h.buffer ds := by
  induction ds with
  | nil => intro h; simp [runHandler, pushes]
  | cons d ds ih =>
    intro h
    simp only [runHandler, pushes]
    rw [ih]
    simp [on_text_delta]

theorem pushes_get? (ds : List (Option String)) :
    ∀ (b : String) (i : Nat), i < ds.length →
      (pushes b ds).get? i = some (b ++ concatFrags (ds.take (i + 1))) := by
  induction ds with
  | nil => intro b i hi; simp at hi
  | cons d ds ih =>
    intro b i hi
    cases i with
    | zero => simp [pushes, concatFrags]
    | succ j =>
      simp only [pushes, List.get?_cons_succ, List.take, concatFrags]
      rw [ih (b ++ d.getD "") j (by simpa using hi)]
      simp [String.append_assoc]

theorem scanAtts_eq (env : Env) (hok : ∀ fid, ∃ fo, env.retrieveFile fid = Except.ok fo) :
    ∀ l : List Attachment, scanAtts env l = Except.ok (l.findSome? (attMd env)) := by
  intro l
  induction l with
  | nil => simp [scanAtts, List.findSome?]
  | cons att rest ih =>
    rw [List.findSome?]
    cases hfi : att.file_id with
    | none => simp [scanAtts, hfi, attMd, ih]
    | some fid =>
      by_cases hemp : fid.isEmpty
      · simp [scanAtts, hfi, attMd, hemp, ih]
      · obtain ⟨fo, hfo⟩ := hok fid
        cases hfn : fo.filename with
        | none => simp [scanAtts, hfi, attMd, hemp, hfo, hfn, ih]
        | some fn =>
          by_cases hmd : pyEndsWith fn ".md"
          · simp [scanAtts, hfi, attMd, hemp, hfo, hfn, hmd]
          · simp [scanAtts, hfi, attMd, hemp, hfo, hfn, hmd, ih]

theorem scanMsgs_eq (env : Env) (hok : ∀ fid, ∃ fo, env.retrieveFile fid = Except.ok fo) :
    ∀ msgs : List Message, scanMsgs env msgs = Except.ok (msgs.findSome? (msgMd env)) := by
  intro msgs
  induction msgs with
  | nil => simp [scanMsgs, List.findSome?]
  | cons msg rest ih =>
    rw [List.findSome?]
    rw [scanMsgs, scanAtts_eq env hok]
    cases hm : (msg.attachments.getD []).findSome? (attMd env) with
    | none => simp [msgMd, hm, ih]
    | some fid => simp [msgMd, hm]

theorem runAfterThread_thread_id (env : Env) (p : String) (s : SessionState)
    (tid : String) (tr : Trace) :
    ((runAfterThread env p s tid tr).1).thread_id = s.thread_id := by
  unfold runAfterThread
  repeat' split
  all_goals rfl

theorem runAfterThread_file_id (env : Env) (p : String) (s : SessionState)
    (tid : String) (tr : Trace) :
    ((runAfterThread env p s tid tr).1).file_id = s.file_id := by
  unfold runAfterThread
  repeat' split
  all_goals rfl

theorem runAfterThread_threadCreates (env : Env) (p : String) (s : SessionState)
    (tid : String) (tr : Trace) :
    ((runAfterThread env p s tid tr).2.2).threadCreates = tr.threadCreates := by
  unfold runAfterThread
  repeat' split
  all_goals rfl

theorem runAfterThread_threadRetrieves (env : Env) (p : String) (s : SessionState)
    (tid : String) (tr : Trace) :
    ((runAfterThread env p s tid tr).2.2).threadRetrieves = tr.threadRetrieves := by
  unfold runAfterThread
  repeat' split
  all_goals rfl

theorem runAfterThread_fileDeletes (env : Env) (p : String) (s : SessionState)
    (tid : String) (tr : Trace) :
    ((runAfterThread env p s tid tr).2.2).fileDeletes = tr.fileDeletes := by
  unfold runAfterThread
  repeat' split
  all_goals rfl

theorem runAfterThread_threadDeletes (env : Env) (p : String) (s : SessionState)
    (tid : String) (tr : Trace) :
    ((runAfterThread env p s tid tr).2.2).threadDeletes = tr.threadDeletes := by
  unfold runAfterThread
  repeat' split
  all_goals rfl

theorem runAfterThread_inv (env : Env) (p : String) (s : SessionState)
    (tid : String) (tr : Trace) (h : ReportInv s) :
    ReportInv (runAfterThread env p s tid tr).1 := by
  unfold runAfterThread
  repeat' split
  all_goals first
    | exact h
    | exact fun _ => ⟨rfl, _, rfl⟩

theorem runAnalysis_inv (env : Env) (p : String) (s : SessionState)
    (h : ReportInv s) : ReportInv (runAnalysis env p s).1 := by
  unfold runAnalysis
  repeat' split
  all_goals first
    | exact h
    | (apply runAfterThread_inv
       intro ht
       exact h (by simpa [truthyB] using ht))

theorem run_keeps_thread (env : Env) (p : String) (s : SessionState) (t : String)
    (h : s.thread_id = some t) :
    ((runAnalysis env p s).1).thread_id = some t ∧
    ((runAnalysis env p s).2.2).threadCreates = 0 ∧
    ∀ r ∈ ((runAnalysis env p s).2.2).threadRetrieves, r = t := by
  cases hup : env.upload with
  | error e => simp [runAnalysis, hup, h, Trace.empty]
  | ok fid =>
    cases hrt : env.retrieveThread t with
    | error e => simp [runAnalysis, hup, h, hrt, Trace.empty]
    | ok tid =>
      simp only [runAnalysis, hup, h, hrt]
      refine ⟨?_, ?_, ?_⟩
      · rw [runAfterThread_thread_id]
      · simp [runAfterThread_threadCreates, Trace.empty]
      · simp [runAfterThread_threadRetrieves]

theorem runAfterThread_raised (env : Env) (p : String) (s : SessionState)
    (tid : String) (tr : Trace) (e : PyErr)
    (h : env.updateThread tid [s.file_id.getD ""] = Except.error e
       ∨ env.updateThread tid [s.file_id.getD ""] = Except.ok () ∧
           env.createMessage tid p = Except.error e
       ∨ env.updateThread tid [s.file_id.getD ""] = Except.ok () ∧
           env.createMessage tid p = Except.ok () ∧
           env.streamRun = Except.error e) :
    (runAfterThread env p s tid tr).2.1 = Outcome.raised e := by
  unfold runAfterThread
  rcases h with h1 | ⟨h1, h2⟩ | ⟨h1, h2, h3⟩
  · rw [h1]
  · rw [h1, h2]
  · rw [h1, h2, h3]

/-! ### Claim theorems -/

/-- Claim C1: for every run and every N between 1 and the number of streamed
fragments, the text pushed to the display sink after the Nth fragment (entry
N-1 of the sink sequence) equals the concatenation of fragments 1..N, a
fragment with an absent value contributing the empty string — the sink always
receives the full accumulated text-so-far, never a bare delta. -/
theorem sink_receives_full_accumulation (ds : List (Option String)) (N : Nat)
    (h1 : 1 ≤ N) (h2 : N ≤ ds.length) :
    (runHandler initHandler ds).box.get? (N - 1) = some (concatFrags (ds.take N)) := by
  rw [runHandler_box]
  have hlt : N - 1 < ds.length := by omega
  rw [initHandler]
  simp only [List.nil_append]
  rw [pushes_get? ds "" (N - 1) hlt]
  have hN : N - 1 + 1 = N := by omega
  rw [hN]
  simp

/-- Witness for C1 on the fragment stream ["# Report\n", None, "## Summary\n"]:
after the third fragment the sink holds the concatenation of all three, the
absent middle fragment contributing nothing. -/
theorem sink_receives_full_accumulation_witness :
    (runHandler initHandler [some "# Report\n", none, some "## Summary\n"]).box.get? 2 =
      some "# Report\n## Summary\n" := by
  have h := sink_receives_full_accumulation
    [some "# Report\n", none, some "## Summary\n"] 3 (by decide) (by decide)
  exact h.trans (by rfl)

/-- Claim C2: when the session already stores a thread identifier — in
particular after any first run that stored one — a further run creates no
thread, retrieves the existing thread by exactly the stored identifier, and
leaves the stored identifier unchanged. -/
theorem thread_reused_across_runs (env1 env2 : Env) (p1 p2 : String)
    (s : SessionState) (t : String)
    (h : ((runAnalysis env1 p1 s).1).thread_id = some t) :
    ((runAnalysis env2 p2 (runAnalysis env1 p1 s).1).1).thread_id = some t ∧
    ((runAnalysis env2 p2 (runAnalysis env1 p1 s).1).2.2).threadCreates = 0 ∧
    ∀ r ∈ ((runAnalysis env2 p2 (runAnalysis env1 p1 s).1).2.2).threadRetrieves, r = t :=
  run_keeps_thread env2 p2 _ t h

/-- Witness for C2: with the all-success provider env0, a first run from a
brand-new session stores thread th1, and a second run leaves it unchanged
while creating no thread. -/
theorem thread_reused_across_runs_witness :
    ((runAnalysis env0 "p" (runAnalysis env0 "p" initialState).1).1).thread_id = some "th1" ∧
    ((runAnalysis env0 "p" (runAnalysis env0 "p" initialState).1).2.2).threadCreates = 0 := by
  have h := thread_reused_across_runs env0 env0 "p" "p" initialState "th1" (by rfl)
  exact ⟨h.1, h.2.1⟩

/-- Claim C3: when listing succeeds and every file-metadata retrieval
succeeds, extraction returns the first qualifying Markdown-attachment
identifier scanned over all messages, and only when no message has one does
it return the first regex match over the string forms of the messages — so
whenever both exist, the attachment-based identifier wins. -/
theorem extract_prefers_md_attachment (env : Env) (tid : String) (msgs : List Message)
    (hls : env.listMessages tid = Except.ok msgs)
    (hok : ∀ fid, ∃ fo, env.retrieveFile fid = Except.ok fo) :
    extract_md_file_id env tid = Except.ok
      (match msgs.findSome? (msgMd env) with
       | some fid => some fid
       | none => regexScan msgs) := by
  unfold extract_md_file_id
  simp only [hls]
  rw [scanMsgs_eq env hok msgs]
  cases msgs.findSome? (msgMd env) <;> simp

/-- Witness for C3: in env0 the message list holds a regex-matching text
(first) and a Markdown attachment (second); extraction returns the
attachment identifier, not the regex match that also exists. -/
theorem extract_prefers_md_attachment_witness :
    extract_md_file_id env0 "th1" = Except.ok (some "file-att1") ∧
    regexScan [msgRegex, msgAtt] = some "file-regex999" := by
  constructor
  · have h := extract_prefers_md_attachment env0 "th1" [msgRegex, msgAtt] rfl
      (fun fid => ⟨{ filename := some "report.md" }, rfl⟩)
    exact h.trans (by rfl)
  · rfl

/-- Claim C4: when steps 1-5 succeed but no listed message carries a
qualifying Markdown attachment and no message string form matches the
file-identifier pattern, the run signals the distinct report-not-found
condition (st.error followed by st.stop, not a crash), fetches no file, and
leaves the report bytes, report name and completion flag as empty as they
were. -/
theorem run_reports_not_found (env : Env) (p : String) (s : SessionState)
    (f tid : String) (msgs : List Message)
    (hb : s.report_bytes = none) (hn : s.report_name = none)
    (hfin : s.run_finished = none)
    (hup : env.upload = Except.ok f)
    (hth : acquiresThread env s tid)
    (hupd : env.updateThread tid [f] = Except.ok ())
    (hmsg : env.createMessage tid p = Except.ok ())
    (hstr : ∃ ds, env.streamRun = Except.ok ds)
    (hls : env.listMessages tid = Except.ok msgs)
    (hok : ∀ fid, ∃ fo, env.retrieveFile fid = Except.ok fo)
    (hnoatt : msgs.findSome? (msgMd env) = none)
    (hnoreg : regexScan msgs = none) :
    (runAnalysis env p s).2.1 = Outcome.reportNotFound ∧
    ((runAnalysis env p s).1).report_bytes = none ∧
    ((runAnalysis env p s).1).report_name = none ∧
    ((runAnalysis env p s).1).run_finished = none ∧
    ((runAnalysis env p s).2.2).fileFetches = [] := by
  obtain ⟨ds, hds⟩ := hstr
  have hext : extract_md_file_id env tid = Except.ok none := by
    unfold extract_md_file_id
    simp only [hls]
    rw [scanMsgs_eq env hok msgs]
    simp [hnoatt, hnoreg]
  have hafter : ∀ (s2 : SessionState) (tr : Trace), s2.file_id = some f →
      runAfterThread env p s2 tid tr = (s2, Outcome.reportNotFound, tr) := by
    intro s2 tr hf2
    unfold runAfterThread
    simp only [hf2, Option.getD_some, hupd, hmsg, hds, hext]
  rcases hth with ⟨hnone, hct⟩ | ⟨st, hsome, hrt⟩
  · have heq : runAnalysis env p s =
        runAfterThread env p { s with file_id := some f, thread_id := some tid } tid
          { Trace.empty with threadCreates := 1 } := by
      unfold runAnalysis
      simp only [hup, hnone, hct]
    rw [heq, hafter _ _ rfl]
    exact ⟨rfl, hb, hn, hfin, rfl⟩
  · have heq : runAnalysis env p s =
        runAfterThread env p { s with file_id := some f } tid
          { Trace.empty with threadRetrieves := [st] } := by
      unfold runAnalysis
      simp only [hup, hsome, hrt]
    rw [heq, hafter _ _ rfl]
    exact ⟨rfl, hb, hn, hfin, rfl⟩

/-- Witness for C4: in env4 the single message has no attachment and no
regex match; a run from a brand-new session ends in the report-not-found
condition with no file fetched and the report fields still empty. -/
theorem run_reports_not_found_witness :
    (runAnalysis env4 "p" initialState).2.1 = Outcome.reportNotFound ∧
    ((runAnalysis env4 "p" initialState).1).report_bytes = none ∧
    ((runAnalysis env4 "p" initialState).1).run_finished = none ∧
    ((runAnalysis env4 "p" initialState).2.2).fileFetches = [] := by
  have h := run_reports_not_found env4 "p" initialState "file-abc" "th1" [msgPlain]
    rfl rfl rfl rfl (Or.inl ⟨rfl, rfl⟩) rfl rfl
    ⟨[some "# Report\n", some "## Summary\n"], rfl⟩ rfl
    (fun fid => ⟨{ filename := some "report.md" }, rfl⟩) rfl rfl
  exact ⟨h.1, h.2.1, h.2.2.2.1, h.2.2.2.2⟩

/-- Claim C5 is refuted by the code: when the reset button handler runs, the
script-level name md_file_id is unbound (the run branch did not execute in
that script rerun), so after deleting the archive file the handler hits a
NameError that the bare except swallows, and neither the report file nor the
thread deletion request is ever issued, even though all three handles are
present. This theorem evaluates the handler at such a session. -/
theorem reset_skips_report_and_thread_deletions :
    resetHandler env0 none s5 =
      (initialState, { Trace.empty with fileDeletes := ["file-up1"] }) ∧
    (tryDeletions env0 none s5).2 = some (PyErr.nameErr "md_file_id") :=
  ⟨rfl, rfl⟩

/-- Claim C6: the reset handler always returns every session field to its
empty initial value — identical to a brand-new session — no matter how the
preceding deletion attempts went (any exception they raise is swallowed and
cannot prevent the clear). -/
theorem reset_always_clears (env : Env) (mdVar : Option (Option String))
    (s : SessionState) :
    ((resetHandler env mdVar s).1).thread_id = none ∧
    ((resetHandler env mdVar s).1).file_id = none ∧
    ((resetHandler env mdVar s).1).run_finished = none ∧
    ((resetHandler env mdVar s).1).report_bytes = none ∧
    ((resetHandler env mdVar s).1).report_name = none ∧
    (resetHandler env mdVar s).1 = initialState :=
  ⟨rfl, rfl, rfl, rfl, rfl, rfl⟩

/-- Bridge: when the upload succeeds and the thread step succeeds, the run
branch continues as runAfterThread on a state holding the fresh archive
handle. -/
theorem runAnalysis_to_after (env : Env) (p : String) (s : SessionState)
    (f tid : String) (hup : env.upload = Except.ok f)
    (hth : acquiresThread env s tid) :
    runAnalysis env p s =
      runAfterThread env p { s with file_id := some f, thread_id := some tid } tid
        { Trace.empty with threadCreates := 1 } ∨
    ∃ st, runAnalysis env p s =
      runAfterThread env p { s with file_id := some f } tid
        { Trace.empty with threadRetrieves := [st] } := by
  rcases hth with ⟨hn, hc⟩ | ⟨st, hs, hr⟩
  · left
    unfold runAnalysis
    simp only [hup, hn, hc]
  · right
    exact ⟨st, by unfold runAnalysis; simp only [hup, hs, hr]⟩

/-- Amended claim C7: a provider error raised at any of steps 1-5 (upload,
thread creation, thread retrieval, file attachment, message posting, run
streaming) aborts the run with the exception propagating uncaught out of the
script (Outcome.raised); the script installs no handler that would convert
it to a user-visible message, and session state is left as it was at the
failure point. -/
theorem provider_errors_propagate_uncaught (env : Env) (p : String)
    (s : SessionState) (e : PyErr)
    (h : env.upload = Except.error e
       ∨ (∃ f, env.upload = Except.ok f ∧ s.thread_id = none ∧
            env.createThread = Except.error e)
       ∨ (∃ f st, env.upload = Except.ok f ∧ s.thread_id = some st ∧
            env.retrieveThread st = Except.error e)
       ∨ (∃ f tid, env.upload = Except.ok f ∧ acquiresThread env s tid ∧
            env.updateThread tid [f] = Except.error e)
       ∨ (∃ f tid, env.upload = Except.ok f ∧ acquiresThread env s tid ∧
            env.updateThread tid [f] = Except.ok () ∧
            env.createMessage tid p = Except.error e)
       ∨ (∃ f tid, env.upload = Except.ok f ∧ acquiresThread env s tid ∧
            env.updateThread tid [f] = Except.ok () ∧
            env.createMessage tid p = Except.ok () ∧
            env.streamRun = Except.error e)) :
    (runAnalysis env p s).2.1 = Outcome.raised e := by
  rcases h with h1
    | ⟨f, h1, h2, h3⟩
    | ⟨f, st, h1, h2, h3⟩
    | ⟨f, tid, h1, h2, h3⟩
    | ⟨f, tid, h1, h2, h3, h4⟩
    | ⟨f, tid, h1, h2, h3, h4, h5⟩
  · unfold runAnalysis
    simp only [h1]
  · unfold runAnalysis
    simp only [h1, h2, h3]
  · unfold runAnalysis
    simp only [h1, h2, h3]
  · rcases runAnalysis_to_after env p s f tid h1 h2 with heq | ⟨st, heq⟩ <;>
      rw [heq] <;>
      exact runAfterThread_raised _ _ _ _ _ _ (Or.inl h3)
  · rcases runAnalysis_to_after env p s f tid h1 h2 with heq | ⟨st, heq⟩ <;>
      rw [heq] <;>
      exact runAfterThread_raised _ _ _ _ _ _ (Or.inr (Or.inl ⟨h3, h4⟩))
  · rcases runAnalysis_to_after env p s f tid h1 h2 with heq | ⟨st, heq⟩ <;>
      rw [heq] <;>
      exact runAfterThread_raised _ _ _ _ _ _ (Or.inr (Or.inr ⟨h3, h4, h5⟩))

/-- Counterexample to claim C7 as stated: with a provider whose upload call
raises, the run branch ends with the exception propagating uncaught — the
raised outcome, which is not the report-not-found condition, the only
user-visible error message the script itself produces — and session state is
left untouched. No handler in the script converts the error. -/
theorem upload_error_not_converted :
    runAnalysis envFail "p" initialState =
      (initialState, Outcome.raised (PyErr.apiErr "upload failed"), Trace.empty) ∧
    Outcome.raised (PyErr.apiErr "upload failed") ≠ Outcome.reportNotFound :=
  ⟨rfl, by decide⟩

/-- Witness for the amended C7: the failing upload of envFail propagates as
a raised exception out of the run branch. -/
theorem provider_errors_propagate_uncaught_witness :
    (runAnalysis envFail "p" initialState).2.1 =
      Outcome.raised (PyErr.apiErr "upload failed") :=
  provider_errors_propagate_uncaught envFail "p" initialState _ (Or.inl rfl)

/-- Claim C8: the cached assistant accessor is idempotent for the process
lifetime — the first call performs exactly one creation call, with the fixed
configuration, and caches the returned handle; any call with a populated
cache (in particular the second call) returns the cached handle with no
creation call. -/
theorem assistant_registry_idempotent (create : AssistantConfig → String) :
    (get_or_create_assistant create none).2.2 = [fixedConfig] ∧
    (get_or_create_assistant create none).2.1 =
      some (get_or_create_assistant create none).1 ∧
    (∀ h : String, get_or_create_assistant create (some h) = (h, some h, [])) ∧
    get_or_create_assistant create (get_or_create_assistant create none).2.1 =
      ((get_or_create_assistant create none).1,
       (get_or_create_assistant create none).2.1, []) :=
  ⟨rfl, rfl, fun _ => rfl, rfl⟩

/-- Claim C9: a successful upload stores the fresh archive handle in session
state, overwriting any prior handle, and the run branch issues no deletion
request for the superseded handle (or anything else). -/
theorem upload_replaces_archive_handle (env : Env) (p : String)
    (s : SessionState) (f : String) (h : env.upload = Except.ok f) :
    ((runAnalysis env p s).1).file_id = some f ∧
    ((runAnalysis env p s).2.2).fileDeletes = [] ∧
    ((runAnalysis env p s).2.2).threadDeletes = [] := by
  cases hth : s.thread_id with
  | none =>
    cases hct : env.createThread with
    | error e => simp [runAnalysis, h, hth, hct, Trace.empty]
    | ok tid =>
      simp only [runAnalysis, h, hth, hct]
      refine ⟨?_, ?_, ?_⟩
      · rw [runAfterThread_file_id]
      · simp [runAfterThread_fileDeletes, Trace.empty]
      · simp [runAfterThread_threadDeletes, Trace.empty]
  | some st =>
    cases hrt : env.retrieveThread st with
    | error e => simp [runAnalysis, h, hth, hrt, Trace.empty]
    | ok tid =>
      simp only [runAnalysis, h, hth, hrt]
      refine ⟨?_, ?_, ?_⟩
      · rw [runAfterThread_file_id]
      · simp [runAfterThread_fileDeletes, Trace.empty]
      · simp [runAfterThread_threadDeletes, Trace.empty]

/-- Witness for C9: a run over a session holding the stale handle file-old
replaces it with the fresh handle file-abc and deletes nothing. -/
theorem upload_replaces_archive_handle_witness :
    ((runAnalysis env0 "p" s9).1).file_id = some "file-abc" ∧
    ((runAnalysis env0 "p" s9).2.2).fileDeletes = [] ∧
    ((runAnalysis env0 "p" s9).2.2).threadDeletes = [] :=
  upload_replaces_archive_handle env0 "p" s9 "file-abc" rfl

/-- Claim C10: in every reachable session state, a truthy completion flag
guarantees that the canonical report name and some report bytes are stored,
and the download section (gated on that flag) serves exactly those bytes
under that filename. -/
theorem run_finished_gates_report (s : SessionState) (hr : Reachable s)
    (hf : truthyB s.run_finished = true) :
    s.report_name = some "Medical-Diagnosis-Project-Report.md" ∧
    ∃ b, s.report_bytes = some b ∧
      downloadPayload s = some (b, "Medical-Diagnosis-Project-Report.md") := by
  have hinv : ReportInv s := by
    clear hf
    induction hr with
    | init => intro ht; simp [initialState, truthyB] at ht
    | run env prompt hs ih => exact runAnalysis_inv env prompt _ ih
    | reset env mdVar hs ih => intro ht; simp [resetHandler, initialState, truthyB] at ht
  obtain ⟨hn, b, hb⟩ := hinv hf
  refine ⟨hn, b, hb, ?_⟩
  simp [downloadPayload, hf, hb, hn]

/-- Witness for C10: the state reached by one successful run of env0 has a
truthy completion flag, and the theorem yields the canonical stored report
name. -/
theorem run_finished_gates_report_witness :
    ((runAnalysis env0 "p" initialState).1).report_name =
      some "Medical-Diagnosis-Project-Report.md" :=
  (run_finished_gates_report _ (Reachable.run env0 "p" Reachable.init) (by rfl)).1
